import Mathlib

/-!
Verification of the client-side session/token lifecycle manager of the
sql-playground frontend.

Embedded source files:
- src/unnamed/part_001: axios interceptor module (request interceptor,
  response interceptor with single-flight refresh, processQueue).
- src/src/contexts/AuthContext.tsx: login, register, logout, and the
  periodic token monitoring started by startTokenMonitoring.
- src/src/hooks/useActivityTracker.ts: activity tracker with the advisory
  shouldPreventExpiration signal.
- src/unnamed/part_000 and src/src/WorkingApp.tsx: user progress
  persistence under per-user localStorage keys.

The stateful TypeScript is embedded as explicit state passing: each event
handler becomes a function from a state to a new state together with a
trace of the observable micro-actions it performs, in the order the source
performs them within one synchronous segment of the JavaScript event loop.
-/

/-- Slice of window.localStorage used by the app. The four fixed keys are
sql-playground-token, sql-playground-user, sql-playground-expires-at and
sql-playground-progress; the field userProgress models the family of
per-user keys sql-playground-progress-(id) written by saveUserProgress
(src/unnamed/part_000 line 96), as an association list from user id to the
serialized progress value. -/
structure LocalStorage where
  token : Option String
  user : Option String
  expiresAt : Option String
  progress : Option String
  userProgress : List (Nat × String)
  deriving Repr, DecidableEq

/-- Reads the per-user progress key sql-playground-progress-(id). -/
def LocalStorage.userProgressOf (s : LocalStorage) (id : Nat) : Option String :=
  (s.userProgress.find? (fun p => p.1 == id)).map Prod.snd

/-- Writes key id in an association list, mirroring localStorage.setItem on
the per-user progress key. -/
def setAssoc (l : List (Nat × String)) (id : Nat) (v : String) : List (Nat × String) :=
  if l.any (fun p => p.1 == id) then
    l.map (fun p => if p.1 == id then (id, v) else p)
  else
    l ++ [(id, v)]

/-- Embeds saveUserProgress (src/unnamed/part_000 lines 94-99): when a user
is present, localStorage.setItem(sql-playground-progress-(user.id),
JSON.stringify(progress)); otherwise nothing is stored. -/
def saveUserProgress (s : LocalStorage) (userId : Option Nat) (progress : String) :
    LocalStorage :=
  match userId with
  | none => s
  | some uid => { s with userProgress := setAssoc s.userProgress uid progress }

/-- Embeds the four localStorage.removeItem calls performed both by the
failed-refresh path of the response interceptor (src/unnamed/part_001
lines 90-93) and by logout (src/src/contexts/AuthContext.tsx lines
210-213): the keys sql-playground-token, sql-playground-user,
sql-playground-expires-at and sql-playground-progress are removed. The
per-user keys sql-playground-progress-(id) are not touched by either call
site. -/
def removeStoredAuthData (s : LocalStorage) : LocalStorage :=
  { s with token := none, user := none, expiresAt := none, progress := none }

/-- Outbound request configuration: the url, the _retry flag set by the
response interceptor, and the Authorization header if any. -/
structure RequestConfig where
  url : String
  retry : Bool
  authHeader : Option String
  deriving Repr, DecidableEq

/-- Embeds the request interceptor (src/unnamed/part_001 lines 25-34): it
reads sql-playground-token from localStorage and, when present, sets the
Authorization header to Bearer followed by the token; otherwise the
request is sent unchanged. -/
def requestInterceptor (storage : LocalStorage) (config : RequestConfig) : RequestConfig :=
  match storage.token with
  | some t => { config with authHeader := some ("Bearer " ++ t) }
  | none => config

/-- Outcome of the POST /refresh network call issued by the response
interceptor (src/unnamed/part_001 lines 63-67): either a success carrying
the new token and expiry from response.data.data, or a failure (any thrown
error). -/
inductive RefreshOutcome where
  | success (token : String) (expiresAt : String)
  | failure
  deriving Repr, DecidableEq

/-- Module-level state of src/unnamed/part_001 together with the storage
and the axios default Authorization header it mutates. failedQueue holds
the waiter identities in enqueue order (FIFO). refreshOutstanding counts
POST /refresh network calls currently in flight; drivingCall is the
identity of the request whose handler issued the outstanding refresh. -/
structure InterceptorSys where
  storage : LocalStorage
  defaultAuthHeader : Option String
  isRefreshing : Bool
  failedQueue : List Nat
  refreshOutstanding : Nat
  drivingCall : Option Nat
  redirectedToLogin : Bool
  deriving Repr, DecidableEq

/-- Observable micro-actions of the interceptor handlers, in source order
within one synchronous segment. -/
inductive Act where
  | passThroughError (id : Nat)
  | enqueueWaiter (id : Nat)
  | markRetried (id : Nat)
  | issueRefresh (bearer : String)
  | storeToken (t : String)
  | storeExpiry (e : String)
  | setDefaultHeader (h : String)
  | resolveWaiter (id : Nat) (token : Option String)
  | rejectWaiter (id : Nat)
  | replayRequest (id : Nat) (bearer : String)
  | clearStoredAuth
  | redirectToLogin
  | rejectCaller (id : Nat)
  | setRefreshingFlag (b : Bool)
  deriving Repr, DecidableEq

/-- Embeds processQueue (src/unnamed/part_001 lines 11-21): every queued
waiter is rejected when an error is given and resolved with the token
argument otherwise, in queue (FIFO) order; the queue is then emptied by the
caller of this trace. -/
def processQueue (queue : List Nat) (error : Bool) (token : Option String) : List Act :=
  queue.map (fun w => if error then Act.rejectWaiter w else Act.resolveWaiter w token)

/-- Embeds the continuation attached to a queued waiter promise
(src/unnamed/part_001 lines 47-50): once resolved with a token, the waiter
sets its Authorization header to Bearer followed by the token and replays
its original request. (A null token would render as the literal string
null inside the template literal.) -/
def waiterContinuation (id : Nat) (token : Option String) : List Act :=
  [Act.replayRequest id ("Bearer " ++ token.getD "null")]

/-- Network-level events delivered to the interceptor module: a response
error observed by the response interceptor (with its HTTP status, if the
error has a response, and the _retry flag of its config), or the
settlement of the outstanding POST /refresh call. -/
inductive NetEvent where
  | respError (id : Nat) (status : Option Nat) (retried : Bool)
  | refreshSettled (outcome : RefreshOutcome)
  deriving Repr, DecidableEq

/-- Embeds the response interceptor error handler (src/unnamed/part_001
lines 39-105) up to the point where it either finishes synchronously or
suspends awaiting POST /refresh. Branches, in source order:
line 42 guard (401 and not yet retried), line 43 enqueue when a refresh is
already in flight, lines 53-61 driver path reading the stored token,
lines 85-101 the catch/finally path taken synchronously when no token is
stored, line 104 pass-through for every other error. -/
def respErrorStep (s : InterceptorSys) (id : Nat) (status : Option Nat) (retried : Bool) :
    InterceptorSys × List Act :=
  if status = some 401 ∧ retried = false then
    if s.isRefreshing then
      ({ s with failedQueue := s.failedQueue ++ [id] }, [Act.enqueueWaiter id])
    else
      match s.storage.token with
      | none =>
          ({ s with
              storage := removeStoredAuthData s.storage,
              failedQueue := [],
              redirectedToLogin := true,
              isRefreshing := false },
            [Act.markRetried id, Act.setRefreshingFlag true]
              ++ processQueue s.failedQueue true none
              ++ [Act.clearStoredAuth, Act.redirectToLogin, Act.rejectCaller id,
                  Act.setRefreshingFlag false])
      | some t =>
          ({ s with
              isRefreshing := true,
              refreshOutstanding := s.refreshOutstanding + 1,
              drivingCall := some id },
            [Act.markRetried id, Act.setRefreshingFlag true,
              Act.issueRefresh ("Bearer " ++ t)])
  else
    (s, [Act.passThroughError id])

/-- Embeds the resumption of the driving handler once POST /refresh
settles (src/unnamed/part_001 lines 69-101): on success, store the new
token and expiry, set the axios default header, resolve the queue via
processQueue, replay the driving request with the new token, and reset
isRefreshing in the finally block; on failure, reject the queue, clear the
four stored keys, redirect to /login, reject the driving caller, and reset
isRefreshing in the finally block. -/
def refreshSettledStep (s : InterceptorSys) (outcome : RefreshOutcome) :
    InterceptorSys × List Act :=
  match s.drivingCall with
  | none => (s, [])
  | some d =>
    match outcome with
    | RefreshOutcome.success t e =>
        ({ s with
            storage := { s.storage with token := some t, expiresAt := some e },
            defaultAuthHeader := some ("Bearer " ++ t),
            failedQueue := [],
            isRefreshing := false,
            refreshOutstanding := s.refreshOutstanding - 1,
            drivingCall := none },
          [Act.storeToken t, Act.storeExpiry e, Act.setDefaultHeader ("Bearer " ++ t)]
            ++ processQueue s.failedQueue false (some t)
            ++ [Act.replayRequest d ("Bearer " ++ t), Act.setRefreshingFlag false])
    | RefreshOutcome.failure =>
        ({ s with
            storage := removeStoredAuthData s.storage,
            failedQueue := [],
            isRefreshing := false,
            refreshOutstanding := s.refreshOutstanding - 1,
            drivingCall := none,
            redirectedToLogin := true },
          processQueue s.failedQueue true none
            ++ [Act.clearStoredAuth, Act.redirectToLogin, Act.rejectCaller d,
                Act.setRefreshingFlag false])

/-- Dispatches a network-level event to the matching handler. -/
def interceptorStep (s : InterceptorSys) (e : NetEvent) : InterceptorSys × List Act :=
  match e with
  | NetEvent.respError id status retried => respErrorStep s id status retried
  | NetEvent.refreshSettled outcome => refreshSettledStep s outcome

/-- Folds a sequence of network events through the interceptor, keeping
the final state. -/
def runEvents (s : InterceptorSys) (events : List NetEvent) : InterceptorSys :=
  events.foldl (fun st e => (interceptorStep st e).1) s

/-- State of the interceptor module right after setupAxiosInterceptors
runs (src/unnamed/part_001 lines 5-9): isRefreshing is false and the
failed queue is empty. -/
def initSys (storage : LocalStorage) (hdr : Option String) : InterceptorSys :=
  { storage := storage
    defaultAuthHeader := hdr
    isRefreshing := false
    failedQueue := []
    refreshOutstanding := 0
    drivingCall := none
    redirectedToLogin := false }

/-- Recognizes the acts that settle a queued waiter. -/
def isWaiterSettlement : Act → Bool
  | Act.resolveWaiter _ _ => true
  | Act.rejectWaiter _ => true
  | _ => false

/-- Recognizes the act of resetting the isRefreshing flag to false. -/
def isResetAct : Act → Bool
  | Act.setRefreshingFlag b => !b
  | _ => false

/-- System invariant of the interceptor module: the number of outstanding
refresh network calls is one exactly when isRefreshing is set and zero
otherwise; a driving call is recorded exactly while refreshing; and the
waiter queue is nonempty only while refreshing. -/
def SysInv (s : InterceptorSys) : Prop :=
  s.refreshOutstanding = (if s.isRefreshing then 1 else 0) ∧
  (s.isRefreshing = true ↔ s.drivingCall.isSome = true) ∧
  (s.failedQueue ≠ [] → s.isRefreshing = true)

/-- User object of src/src/types, as consumed by AuthContext. -/
structure User where
  id : Nat
  name : String
  email : String
  deriving Repr, DecidableEq

/-- Stands in for JSON.stringify on a User, as an injective encoding; the
embedding never inspects the serialized form. -/
def serializeUser (u : User) : String :=
  toString u.id ++ "|" ++ u.name ++ "|" ++ u.email

/-- React state of the AuthProvider (src/src/contexts/AuthContext.tsx
lines 14-20): user, token, loading, error, expiresAt, the isActive flag
maintained by the activity effect (lines 81-108), and whether the token
check interval is currently installed. -/
structure AuthState where
  user : Option User
  token : Option String
  loading : Bool
  error : Option String
  expiresAt : Option String
  isActive : Bool
  monitoring : Bool
  deriving Repr, DecidableEq

/-- Combined application state touched by AuthContext: the React state,
the localStorage slice, and the axios default Authorization header. -/
structure AppState where
  auth : AuthState
  storage : LocalStorage
  defaultAuthHeader : Option String
  deriving Repr, DecidableEq

/-- Payload of data in the success envelope returned by POST /login and
POST /register. -/
structure AuthData where
  user : User
  token : String
  expiresAt : String
  deriving Repr, DecidableEq

/-- Result of awaiting the login or register backend call: a 2xx envelope
with its success flag and data, or a thrown error whose
response.data.message may or may not be present. -/
inductive AuthApiResult where
  | ok (success : Bool) (data : AuthData)
  | thrown (message : Option String)
  deriving Repr, DecidableEq

/-- Models the JavaScript expression m || fallback on an optional string:
a missing or empty (falsy) message yields the fallback. -/
def jsOrElse (m : Option String) (fallback : String) : String :=
  match m with
  | some v => if v = "" then fallback else v
  | none => fallback

/-- How a login or register invocation terminates for its caller: the
returned promise resolves, or the caught error is rethrown. -/
inductive CallOutcome where
  | resolved
  | rethrown (message : Option String)
  deriving Repr, DecidableEq

/-- Embeds login (src/src/contexts/AuthContext.tsx lines 117-158):
setLoading(true) and setError(null) run first; on a success envelope the
user, token and expiry are stored in React state and localStorage, the
axios default header is set and monitoring starts; on a 2xx envelope with
success false nothing else happens; on a thrown error the error flag is
set to response.data.message || the fixed fallback and the error is
rethrown; the finally block clears loading in all cases. The fire-and-
forget POST /activity/record of lines 141-147 swallows its own errors and
touches no state, so it has no footprint here. -/
def login (s : AppState) (resp : AuthApiResult) : AppState × CallOutcome :=
  let s0 : AppState := { s with auth := { s.auth with loading := true, error := none } }
  match resp with
  | AuthApiResult.ok success data =>
      if success then
        ({ s0 with
            auth := { s0.auth with
              user := some data.user
              token := some data.token
              expiresAt := some data.expiresAt
              monitoring := true
              loading := false }
            storage := { s0.storage with
              token := some data.token
              user := some (serializeUser data.user)
              expiresAt := some data.expiresAt }
            defaultAuthHeader := some ("Bearer " ++ data.token) },
          CallOutcome.resolved)
      else
        ({ s0 with auth := { s0.auth with loading := false } }, CallOutcome.resolved)
  | AuthApiResult.thrown msg =>
      ({ s0 with
          auth := { s0.auth with
            error := some (jsOrElse msg "Login failed")
            loading := false } },
        CallOutcome.rethrown msg)

/-- Embeds register (src/src/contexts/AuthContext.tsx lines 160-194),
identical in structure to login with the fallback message Registration
failed. -/
def register (s : AppState) (resp : AuthApiResult) : AppState × CallOutcome :=
  let s0 : AppState := { s with auth := { s.auth with loading := true, error := none } }
  match resp with
  | AuthApiResult.ok success data =>
      if success then
        ({ s0 with
            auth := { s0.auth with
              user := some data.user
              token := some data.token
              expiresAt := some data.expiresAt
              monitoring := true
              loading := false }
            storage := { s0.storage with
              token := some data.token
              user := some (serializeUser data.user)
              expiresAt := some data.expiresAt }
            defaultAuthHeader := some ("Bearer " ++ data.token) },
          CallOutcome.resolved)
      else
        ({ s0 with auth := { s0.auth with loading := false } }, CallOutcome.resolved)
  | AuthApiResult.thrown msg =>
      ({ s0 with
          auth := { s0.auth with
            error := some (jsOrElse msg "Registration failed")
            loading := false } },
        CallOutcome.rethrown msg)

/-- Embeds logout (src/src/contexts/AuthContext.tsx lines 196-216). The
backend POST /logout may throw; the catch only logs, and the finally block
unconditionally stops monitoring, clears user, token and expiry from React
state, removes the four stored keys and deletes the default header. The
backendThrew argument records the network outcome and has no effect on the
result, exactly as in the source. -/
def logout (s : AppState) (backendThrew : Bool) : AppState :=
  { s with
      auth := { s.auth with
        user := none
        token := none
        expiresAt := none
        monitoring := false }
      storage := removeStoredAuthData s.storage
      defaultAuthHeader := none }

/-- Result of awaiting GET /check-token inside the monitoring interval:
a success envelope whose data either carries a refreshed token or only a
fresh expiry, a non-success 2xx envelope, or a thrown error with the HTTP
status of its response if any. -/
inductive CheckTokenResult where
  | refreshed (token : String) (expiresAt : String)
  | stillValid (expiresAt : String)
  | notSuccess
  | thrown (status : Option Nat)
  deriving Repr, DecidableEq

/-- Embeds one firing of the interval installed by startTokenMonitoring
(src/src/contexts/AuthContext.tsx lines 27-57). The body runs only when a
token is present and isActive is true; the returned Boolean records
whether the GET /check-token request was issued. Branches: refreshed data
stores the new token and expiry and sets the default header (lines
32-43); a still-valid answer stores only the new expiry (lines 44-48); a
thrown error is caught and, even on status 401, only logged (lines
49-55). -/
def monitorTick (s : AppState) (resp : CheckTokenResult) : AppState × Bool :=
  if s.auth.token.isSome && s.auth.isActive then
    match resp with
    | CheckTokenResult.refreshed t e =>
        ({ s with
            auth := { s.auth with token := some t, expiresAt := some e }
            storage := { s.storage with token := some t, expiresAt := some e }
            defaultAuthHeader := some ("Bearer " ++ t) },
          true)
    | CheckTokenResult.stillValid e =>
        ({ s with
            auth := { s.auth with expiresAt := some e }
            storage := { s.storage with expiresAt := some e } },
          true)
    | CheckTokenResult.notSuccess => (s, true)
    | CheckTokenResult.thrown _ => (s, true)
  else
    (s, false)

/-- State of the useActivityTracker hook
(src/src/hooks/useActivityTracker.ts lines 3-16); lastActivity is a
millisecond timestamp. -/
structure ActivityTrackerState where
  isActive : Bool
  isInTask : Bool
  taskType : Option String
  lastActivity : Option Nat
  deriving Repr, DecidableEq

/-- Embeds getInactivityDuration (src/src/hooks/useActivityTracker.ts
lines 39-42): zero when no activity was recorded, otherwise the elapsed
time since the last activity. -/
def getInactivityDuration (a : ActivityTrackerState) (now : Nat) : Nat :=
  match a.lastActivity with
  | none => 0
  | some t => now - t

/-- Embeds shouldPreventExpiration (src/src/hooks/useActivityTracker.ts
lines 44-52): true when the user is in a task or was active within the
last five minutes. -/
def shouldPreventExpiration (a : ActivityTrackerState) (now : Nat) : Bool :=
  a.isInTask || getInactivityDuration a now < 5 * 60 * 1000

/-- States that the interceptor module (src/unnamed/part_001) runs with no
access to any activity-tracker state: its transition is a function of the
interceptor state and the network event alone, so the tracker argument is
ignored, matching the absence of any activity reference in that file. -/
def interceptorStepUnderActivity (a : ActivityTrackerState) (s : InterceptorSys)
    (e : NetEvent) : InterceptorSys × List Act :=
  interceptorStep s e

/-- Every interceptor step preserves the system invariant. -/
theorem sysInv_preserved (s : InterceptorSys) (e : NetEvent) (h : SysInv s) :
    SysInv (interceptorStep s e).1 := by
  obtain ⟨h1, h2, h3⟩ := h
  cases e with
  | respError id status retried =>
      simp only [interceptorStep, respErrorStep]
      by_cases hc : status = some 401 ∧ retried = false
      · simp only [if_pos hc]
        by_cases hr : s.isRefreshing = true
        · simp only [hr, if_true]
          exact ⟨by simpa [hr] using h1, ⟨fun _ => h2.mp hr, fun _ => rfl⟩, fun _ => rfl⟩
        · simp only [hr, if_false]
          have hout : s.refreshOutstanding = 0 := by
            simpa [hr] using h1
          have hdn : s.drivingCall = none := by
            rcases hd : s.drivingCall with _ | d
            · rfl
            · exact absurd (h2.mpr (by simp [hd])) hr
          cases ht : s.storage.token with
          | none => simp [SysInv, hout, hdn]
          | some t => simp [SysInv, hout]
      · simp only [if_neg hc, SysInv]
        exact ⟨h1, h2, h3⟩
  | refreshSettled outcome =>
      simp only [interceptorStep, refreshSettledStep]
      cases hd : s.drivingCall with
      | none => exact ⟨h1, h2, h3⟩
      | some d =>
          have hr : s.isRefreshing = true := h2.mpr (by simp [hd])
          have hout : s.refreshOutstanding = 1 := by simpa [hr] using h1
          cases outcome with
          | success t e => simp [SysInv, hout]
          | failure => simp [SysInv, hout]

/-- The system invariant holds along any event sequence started in a state
satisfying it. -/
theorem sysInv_run (events : List NetEvent) (s : InterceptorSys) (h : SysInv s) :
    SysInv (runEvents s events) := by
  induction events generalizing s with
  | nil => exact h
  | cons e es ih => exact ih _ (sysInv_preserved s e h)

/-- The freshly initialized interceptor state satisfies the invariant. -/
theorem sysInv_init (storage : LocalStorage) (hdr : Option String) :
    SysInv (initSys storage hdr) := by
  simp [SysInv, initSys]

/-- Filtering the waiter settlements out of a resolution trace returns the
whole trace: every act of processQueue settles a waiter. -/
theorem filter_processQueue (q : List Nat) (error : Bool) (token : Option String) :
    (processQueue q error token).filter isWaiterSettlement = processQueue q error token := by
  induction q with
  | nil => rfl
  | cons a l ih =>
      cases error <;> simp [processQueue, List.filter, isWaiterSettlement] at ih ⊢

/-- Storage of a logged-in demo session. -/
def demoStorage : LocalStorage :=
  { token := some "T1"
    user := some "1|alice|a@b.c"
    expiresAt := some "E1"
    progress := none
    userProgress := [] }

/-- Interceptor state in the middle of a renewal: the call 0 is driving
the outstanding refresh and calls 1 and 2 are queued waiters. -/
def busySys : InterceptorSys :=
  { storage := demoStorage
    defaultAuthHeader := some "Bearer T1"
    isRefreshing := true
    failedQueue := [1, 2]
    refreshOutstanding := 1
    drivingCall := some 0
    redirectedToLogin := false }

/-- Demo event sequence: two calls hit 401 back to back, the second while
the refresh started by the first is still outstanding. -/
def demoEvents : List NetEvent :=
  [NetEvent.respError 0 (some 401) false,
    NetEvent.respError 1 (some 401) false,
    NetEvent.refreshSettled (RefreshOutcome.success "T2" "E2")]

/-- Claim C1: single-flight refresh. Along every event sequence from the
initialized module, at most one POST /refresh network call is outstanding
at any instant; a call hitting 401 while a renewal is in flight is only
enqueued as a waiter (it performs no other action, so it completes only
when the renewal settles); and when the renewal settles, the settlement
trace gives every queued waiter the same outcome as the driving call: on
success all are resolved with the one new token, on failure all are
rejected, and the queue is drained either way. -/
theorem c1_single_flight (storage : LocalStorage) (hdr : Option String)
    (events : List NetEvent) :
    (runEvents (initSys storage hdr) events).refreshOutstanding ≤ 1 ∧
    (∀ (s : InterceptorSys) (id : Nat), s.isRefreshing = true →
        interceptorStep s (NetEvent.respError id (some 401) false)
          = ({ s with failedQueue := s.failedQueue ++ [id] }, [Act.enqueueWaiter id])) ∧
    (∀ (s : InterceptorSys) (d : Nat) (t e : String), s.drivingCall = some d →
        (refreshSettledStep s (RefreshOutcome.success t e)).2.filter isWaiterSettlement
            = s.failedQueue.map (fun w => Act.resolveWaiter w (some t)) ∧
          (refreshSettledStep s (RefreshOutcome.success t e)).1.failedQueue = []) ∧
    (∀ (s : InterceptorSys) (d : Nat), s.drivingCall = some d →
        (refreshSettledStep s RefreshOutcome.failure).2.filter isWaiterSettlement
            = s.failedQueue.map (fun w => Act.rejectWaiter w) ∧
          (refreshSettledStep s RefreshOutcome.failure).1.failedQueue = []) := by
  refine ⟨?_, ?_, ?_, ?_⟩
  · have h := (sysInv_run events _ (sysInv_init storage hdr)).1
    by_cases hb : (runEvents (initSys storage hdr) events).isRefreshing = true <;>
      simp [hb] at h <;> omega
  · intro s id hr
    simp [interceptorStep, respErrorStep, hr]
  · intro s d t e hd
    constructor
    · simp [refreshSettledStep, hd, List.filter_append, filter_processQueue,
        List.filter, isWaiterSettlement, processQueue]
    · simp [refreshSettledStep, hd]
  · intro s d hd
    constructor
    · simp [refreshSettledStep, hd, List.filter_append, filter_processQueue,
        List.filter, isWaiterSettlement, processQueue]
    · simp [refreshSettledStep, hd]

/-- Witness for C1 at concrete inputs: the demo run keeps at most one
refresh outstanding, call 5 arriving during the busy state is enqueued
behind 1 and 2, and settling the refresh resolves exactly the waiters 1
and 2 with the new token on success, or rejects exactly them on failure. -/
theorem c1_single_flight_witness :
    (runEvents (initSys demoStorage none) demoEvents).refreshOutstanding ≤ 1 ∧
    interceptorStep busySys (NetEvent.respError 5 (some 401) false)
      = ({ busySys with failedQueue := busySys.failedQueue ++ [5] },
          [Act.enqueueWaiter 5]) ∧
    ((refreshSettledStep busySys (RefreshOutcome.success "T2" "E2")).2.filter
          isWaiterSettlement
        = busySys.failedQueue.map (fun w => Act.resolveWaiter w (some "T2")) ∧
      (refreshSettledStep busySys (RefreshOutcome.success "T2" "E2")).1.failedQueue = []) ∧
    ((refreshSettledStep busySys RefreshOutcome.failure).2.filter isWaiterSettlement
        = busySys.failedQueue.map (fun w => Act.rejectWaiter w) ∧
      (refreshSettledStep busySys RefreshOutcome.failure).1.failedQueue = []) := by
  obtain ⟨h1, h2, h3, h4⟩ := c1_single_flight demoStorage none demoEvents
  exact ⟨h1, h2 busySys 5 rfl, h3 busySys 0 "T2" "E2" rfl, h4 busySys 0 rfl⟩

/-- Claim C2: on renewal success the new token and expiry are persisted,
the default Authorization header becomes Bearer of the new token, the
trace resolves every queued waiter with the new token in FIFO order and
then replays the driving request with the new token as bearer, and each
resolved waiter continuation replays its own request with the same bearer
header. -/
theorem c2_refresh_success (s : InterceptorSys) (d : Nat) (t e : String)
    (hd : s.drivingCall = some d) :
    (refreshSettledStep s (RefreshOutcome.success t e)).1.storage.token = some t ∧
    (refreshSettledStep s (RefreshOutcome.success t e)).1.storage.expiresAt = some e ∧
    (refreshSettledStep s (RefreshOutcome.success t e)).1.defaultAuthHeader
      = some ("Bearer " ++ t) ∧
    (refreshSettledStep s (RefreshOutcome.success t e)).2
      = [Act.storeToken t, Act.storeExpiry e, Act.setDefaultHeader ("Bearer " ++ t)]
          ++ s.failedQueue.map (fun w => Act.resolveWaiter w (some t))
          ++ [Act.replayRequest d ("Bearer " ++ t), Act.setRefreshingFlag false] ∧
    (∀ w : Nat, waiterContinuation w (some t)
        = [Act.replayRequest w ("Bearer " ++ t)]) := by
  refine ⟨?_, ?_, ?_, ?_, ?_⟩ <;>
    simp [refreshSettledStep, hd, processQueue, waiterContinuation]

/-- Witness for C2 at the busy demo state: settling the refresh with token
T2 stores T2 and its expiry, sets the default header, resolves waiters 1
and 2 with T2 in order, and replays the driving call 0 with Bearer T2. -/
theorem c2_refresh_success_witness :
    (refreshSettledStep busySys (RefreshOutcome.success "T2" "E2")).1.storage.token
        = some "T2" ∧
    (refreshSettledStep busySys (RefreshOutcome.success "T2" "E2")).1.storage.expiresAt
        = some "E2" ∧
    (refreshSettledStep busySys (RefreshOutcome.success "T2" "E2")).1.defaultAuthHeader
        = some ("Bearer " ++ "T2") ∧
    (refreshSettledStep busySys (RefreshOutcome.success "T2" "E2")).2
      = [Act.storeToken "T2", Act.storeExpiry "E2",
          Act.setDefaultHeader ("Bearer " ++ "T2")]
          ++ busySys.failedQueue.map (fun w => Act.resolveWaiter w (some "T2"))
          ++ [Act.replayRequest 0 ("Bearer " ++ "T2"), Act.setRefreshingFlag false] ∧
    (∀ w : Nat, waiterContinuation w (some "T2")
        = [Act.replayRequest w ("Bearer " ++ "T2")]) :=
  c2_refresh_success busySys 0 "T2" "E2" rfl

/-- Claim C3: on renewal failure the trace rejects every queued waiter
with the refresh failure, clears the four stored keys, redirects to the
login view and rejects the driving caller; afterwards the stored token,
user, expiry and progress keys are all gone, the session is redirected to
the unauthenticated view, and the request interceptor attaches no bearer
header to any further call. -/
theorem c3_refresh_failure (s : InterceptorSys) (d : Nat)
    (hd : s.drivingCall = some d) :
    (refreshSettledStep s RefreshOutcome.failure).2
      = s.failedQueue.map (fun w => Act.rejectWaiter w)
          ++ [Act.clearStoredAuth, Act.redirectToLogin, Act.rejectCaller d,
              Act.setRefreshingFlag false] ∧
    (refreshSettledStep s RefreshOutcome.failure).1.storage.token = none ∧
    (refreshSettledStep s RefreshOutcome.failure).1.storage.user = none ∧
    (refreshSettledStep s RefreshOutcome.failure).1.storage.expiresAt = none ∧
    (refreshSettledStep s RefreshOutcome.failure).1.storage.progress = none ∧
    (refreshSettledStep s RefreshOutcome.failure).1.redirectedToLogin = true ∧
    (∀ cfg : RequestConfig,
        requestInterceptor (refreshSettledStep s RefreshOutcome.failure).1.storage cfg
          = cfg) := by
  refine ⟨?_, ?_, ?_, ?_, ?_, ?_, ?_⟩ <;>
    simp [refreshSettledStep, hd, processQueue, removeStoredAuthData,
      requestInterceptor]

/-- Witness for C3 at the busy demo state: failure rejects waiters 1 and
2, clears the stored keys, redirects and rejects the driving call 0. -/
theorem c3_refresh_failure_witness :
    (refreshSettledStep busySys RefreshOutcome.failure).2
      = busySys.failedQueue.map (fun w => Act.rejectWaiter w)
          ++ [Act.clearStoredAuth, Act.redirectToLogin, Act.rejectCaller 0,
              Act.setRefreshingFlag false] ∧
    (refreshSettledStep busySys RefreshOutcome.failure).1.storage.token = none ∧
    (refreshSettledStep busySys RefreshOutcome.failure).1.storage.user = none ∧
    (refreshSettledStep busySys RefreshOutcome.failure).1.storage.expiresAt = none ∧
    (refreshSettledStep busySys RefreshOutcome.failure).1.storage.progress = none ∧
    (refreshSettledStep busySys RefreshOutcome.failure).1.redirectedToLogin = true ∧
    (∀ cfg : RequestConfig,
        requestInterceptor (refreshSettledStep busySys RefreshOutcome.failure).1.storage
            cfg
          = cfg) :=
  c3_refresh_failure busySys 0 rfl

/-- Helper: the last element of a list extended by two elements is the
second of the two. -/
theorem getLast?_append_pair {α : Type _} (l : List α) (a b : α) :
    (l ++ [a, b]).getLast? = some b := by
  rw [List.getLast?_append_cons]
  rfl

/-- States the ordering asserted by claim C4 over a trace: when the trace
both resets the isRefreshing flag and settles a waiter, the reset comes
first. -/
def resetPrecedesRelease (acts : List Act) : Bool :=
  match acts.findIdx? isResetAct, acts.findIdx? isWaiterSettlement with
  | some i, some j => decide (i < j)
  | _, _ => true

/-- Interceptor state with a single queued waiter used to refute the
ordering stated by claim C4. -/
def oneWaiterSys : InterceptorSys :=
  { storage := demoStorage
    defaultAuthHeader := some "Bearer T1"
    isRefreshing := true
    failedQueue := [7]
    refreshOutstanding := 1
    drivingCall := some 3
    redirectedToLogin := false }

/-- Counterexample to claim C4 as stated: with one queued waiter, the
success trace resolves the waiter at position 3 and only then resets
isRefreshing at position 5, so the reset does not precede the release;
processQueue runs before the finally block in the source. -/
theorem c4_counterexample :
    resetPrecedesRelease
        (refreshSettledStep oneWaiterSys (RefreshOutcome.success "T2" "E2")).2
      = false := by
  decide

/-- Claim C4 as amended: the isRefreshing reset happens after the queued
waiters are resolved or rejected, as the last action of the same
synchronous segment, so it is in force before any waiter continuation or
later 401 handler can run; consequently the settled post-state has
isRefreshing false and a 401 arriving after the renewal settles starts a
fresh renewal with the stored token instead of joining a stale one. -/
theorem c4_reset_before_next_event (s : InterceptorSys) (d : Nat)
    (oc : RefreshOutcome) (hd : s.drivingCall = some d) :
    (refreshSettledStep s oc).1.isRefreshing = false ∧
    (refreshSettledStep s oc).2.getLast? = some (Act.setRefreshingFlag false) ∧
    (∀ (id : Nat) (t2 : String),
        (refreshSettledStep s oc).1.storage.token = some t2 →
        interceptorStep (refreshSettledStep s oc).1
            (NetEvent.respError id (some 401) false)
          = ({ (refreshSettledStep s oc).1 with
                isRefreshing := true
                refreshOutstanding :=
                  (refreshSettledStep s oc).1.refreshOutstanding + 1
                drivingCall := some id },
              [Act.markRetried id, Act.setRefreshingFlag true,
                Act.issueRefresh ("Bearer " ++ t2)])) := by
  cases oc with
  | success t e =>
      refine ⟨by simp [refreshSettledStep, hd], ?_, ?_⟩
      · simp only [refreshSettledStep, hd]
        exact getLast?_append_pair _ _ _
      · intro id t2 ht
        have heq : t2 = t := by
          simp [refreshSettledStep, hd] at ht
          exact ht.symm
        subst heq
        simp [interceptorStep, respErrorStep, refreshSettledStep, hd]
  | failure =>
      refine ⟨by simp [refreshSettledStep, hd], ?_, ?_⟩
      · simp only [refreshSettledStep, hd]
        rw [List.getLast?_append_cons]
        rfl
      · intro id t2 ht
        simp [refreshSettledStep, hd, removeStoredAuthData] at ht

/-- Witness for the amended C4 at the one-waiter demo state: after the
successful settle, isRefreshing is false, the reset is the final action of
the segment, and a fresh 401 immediately starts a new renewal carrying the
newly stored token. -/
theorem c4_reset_before_next_event_witness :
    (refreshSettledStep oneWaiterSys (RefreshOutcome.success "T2" "E2")).1.isRefreshing
        = false ∧
    (refreshSettledStep oneWaiterSys (RefreshOutcome.success "T2" "E2")).2.getLast?
        = some (Act.setRefreshingFlag false) ∧
    (∀ (id : Nat) (t2 : String),
        (refreshSettledStep oneWaiterSys
              (RefreshOutcome.success "T2" "E2")).1.storage.token = some t2 →
        interceptorStep
            (refreshSettledStep oneWaiterSys (RefreshOutcome.success "T2" "E2")).1
            (NetEvent.respError id (some 401) false)
          = ({ (refreshSettledStep oneWaiterSys
                  (RefreshOutcome.success "T2" "E2")).1 with
                isRefreshing := true
                refreshOutstanding :=
                  (refreshSettledStep oneWaiterSys
                      (RefreshOutcome.success "T2" "E2")).1.refreshOutstanding + 1
                drivingCall := some id },
              [Act.markRetried id, Act.setRefreshingFlag true,
                Act.issueRefresh ("Bearer " ++ t2)])) :=
  c4_reset_before_next_event oneWaiterSys 3 (RefreshOutcome.success "T2" "E2") rfl

/-- Claim C5: a 401 on a call already marked retried is propagated to the
caller unchanged, with no state change and in particular no second renewal
attempt for that call. -/
theorem c5_retry_once (s : InterceptorSys) (id : Nat) :
    interceptorStep s (NetEvent.respError id (some 401) true)
      = (s, [Act.passThroughError id]) := by
  simp [interceptorStep, respErrorStep]

/-- Claim C8: when no token is stored and a 401 arrives on a call not yet
retried while no renewal is in flight, the handler issues no renewal
network call, rejects the caller within the same synchronous segment, and
leaves the count of outstanding renewals unchanged. -/
theorem c8_no_token_no_refresh (s : InterceptorSys) (id : Nat)
    (hr : s.isRefreshing = false) (ht : s.storage.token = none) :
    (∀ b : String,
        Act.issueRefresh b ∉
          (interceptorStep s (NetEvent.respError id (some 401) false)).2) ∧
    Act.rejectCaller id ∈
        (interceptorStep s (NetEvent.respError id (some 401) false)).2 ∧
    (interceptorStep s (NetEvent.respError id (some 401) false)).1.refreshOutstanding
      = s.refreshOutstanding := by
  refine ⟨?_, ?_, ?_⟩ <;>
    simp [interceptorStep, respErrorStep, hr, ht, processQueue]

/-- React auth state of a logged-in demo session with the monitor running
and recent activity. -/
def demoAuth : AuthState :=
  { user := some { id := 1, name := "alice", email := "a@b.c" }
    token := some "T1"
    loading := false
    error := none
    expiresAt := some "E1"
    isActive := true
    monitoring := true }

/-- Combined demo application state. -/
def demoApp : AppState :=
  { auth := demoAuth
    storage := demoStorage
    defaultAuthHeader := some "Bearer T1" }

/-- Demo application state identical to demoApp except that the isActive
flag is false. -/
def demoAppInactive : AppState :=
  { demoApp with auth := { demoApp.auth with isActive := false } }

/-- Counterexample to claim C6 as stated: the still-valid branch of the
session monitor updates the stored expiry from E1 to E9 while the stored
token stays untouched, so token and expiry are not always updated
together. -/
theorem c6_counterexample :
    (monitorTick demoApp (CheckTokenResult.stillValid "E9")).1.storage.expiresAt
        = some "E9" ∧
    demoApp.storage.expiresAt = some "E1" ∧
    (monitorTick demoApp (CheckTokenResult.stillValid "E9")).1.storage.token
        = demoApp.storage.token := by
  exact ⟨rfl, rfl, rfl⟩

/-- Claim C6 as amended: in every operation that writes a new stored
token (login, register, the interceptor refresh, and the refreshed branch
of the session monitor) the stored expiry is written together with it; the
still-valid branch of the session monitor is the exception the code
allows, updating the expiry alone while never touching the token. -/
theorem c6_token_with_expiry (s : AppState) (d : AuthData) (t e : String)
    (sys : InterceptorSys) (dr : Nat) (hdr : sys.drivingCall = some dr) :
    ((login s (AuthApiResult.ok true d)).1.storage.token = some d.token ∧
      (login s (AuthApiResult.ok true d)).1.storage.expiresAt = some d.expiresAt) ∧
    ((register s (AuthApiResult.ok true d)).1.storage.token = some d.token ∧
      (register s (AuthApiResult.ok true d)).1.storage.expiresAt = some d.expiresAt) ∧
    ((refreshSettledStep sys (RefreshOutcome.success t e)).1.storage.token = some t ∧
      (refreshSettledStep sys (RefreshOutcome.success t e)).1.storage.expiresAt
        = some e) ∧
    ((monitorTick s (CheckTokenResult.refreshed t e)).2 = true →
      ((monitorTick s (CheckTokenResult.refreshed t e)).1.storage.token = some t ∧
        (monitorTick s (CheckTokenResult.refreshed t e)).1.storage.expiresAt
          = some e)) ∧
    (monitorTick s (CheckTokenResult.stillValid e)).1.storage.token
      = s.storage.token := by
  refine ⟨⟨?_, ?_⟩, ⟨?_, ?_⟩, ⟨?_, ?_⟩, ?_, ?_⟩
  · simp [login]
  · simp [login]
  · simp [register]
  · simp [register]
  · simp [refreshSettledStep, hdr]
  · simp [refreshSettledStep, hdr]
  · intro hrun
    by_cases hg : (s.auth.token.isSome && s.auth.isActive) = true
    · simp [monitorTick, hg]
    · simp [monitorTick, hg] at hrun
  · by_cases hg : (s.auth.token.isSome && s.auth.isActive) = true <;>
      simp [monitorTick, hg]

/-- Witness for the amended C6 at the demo session: a successful login
stores token and expiry together, the interceptor refresh stores both, the
refreshed monitor branch stores both, and the still-valid branch leaves
the token alone. -/
theorem c6_token_with_expiry_witness :
    ((login demoApp (AuthApiResult.ok true
          { user := { id := 2, name := "bob", email := "b@b.c" },
            token := "T3", expiresAt := "E3" })).1.storage.token = some "T3" ∧
      (login demoApp (AuthApiResult.ok true
          { user := { id := 2, name := "bob", email := "b@b.c" },
            token := "T3", expiresAt := "E3" })).1.storage.expiresAt = some "E3") ∧
    ((register demoApp (AuthApiResult.ok true
          { user := { id := 2, name := "bob", email := "b@b.c" },
            token := "T3", expiresAt := "E3" })).1.storage.token = some "T3" ∧
      (register demoApp (AuthApiResult.ok true
          { user := { id := 2, name := "bob", email := "b@b.c" },
            token := "T3", expiresAt := "E3" })).1.storage.expiresAt = some "E3") ∧
    ((refreshSettledStep busySys (RefreshOutcome.success "T2" "E2")).1.storage.token
        = some "T2" ∧
      (refreshSettledStep busySys
            (RefreshOutcome.success "T2" "E2")).1.storage.expiresAt = some "E2") ∧
    ((monitorTick demoApp (CheckTokenResult.refreshed "T2" "E2")).2 = true →
      ((monitorTick demoApp (CheckTokenResult.refreshed "T2" "E2")).1.storage.token
          = some "T2" ∧
        (monitorTick demoApp
              (CheckTokenResult.refreshed "T2" "E2")).1.storage.expiresAt
          = some "E2")) ∧
    (monitorTick demoApp (CheckTokenResult.stillValid "E2")).1.storage.token
      = demoApp.storage.token :=
  c6_token_with_expiry demoApp
    { user := { id := 2, name := "bob", email := "b@b.c" },
      token := "T3", expiresAt := "E3" } "T2" "E2" busySys 0 rfl

/-- Application state in which user 1 has locally saved progress under the
per-user key, as saveUserProgress writes it. -/
def c7App : AppState :=
  { auth := demoAuth
    storage := saveUserProgress demoStorage (some 1) "P1"
    defaultAuthHeader := some "Bearer T1" }

/-- Claim C7 evaluated at the failing input: saveUserProgress stores the
progress of user 1 under the per-user key sql-playground-progress-1, but
logout and the failed-refresh clear (removeStoredAuthData) remove only the
fixed key sql-playground-progress, which nothing ever writes; the
user-keyed progress therefore survives both operations in durable
storage, contradicting the claim. -/
theorem c7_user_progress_survives :
    c7App.storage.userProgressOf 1 = some "P1" ∧
    (logout c7App true).storage.userProgressOf 1 = some "P1" ∧
    (logout c7App true).storage.progress = none ∧
    (logout c7App true).storage.token = none ∧
    (removeStoredAuthData c7App.storage).userProgressOf 1 = some "P1" := by
  exact ⟨rfl, rfl, rfl, rfl, rfl⟩

/-- Counterexample to claim C9 as stated: two executions of the session
monitor differing only in the isActive flag behave differently; the active
one issues the GET /check-token request and updates the stored expiry, the
inactive one skips the check entirely and changes nothing. -/
theorem c9_counterexample :
    (monitorTick demoApp (CheckTokenResult.stillValid "E9")).2 = true ∧
    (monitorTick demoAppInactive (CheckTokenResult.stillValid "E9")).2 = false ∧
    (monitorTick demoApp (CheckTokenResult.stillValid "E9")).1.storage.expiresAt
        = some "E9" ∧
    (monitorTick demoAppInactive (CheckTokenResult.stillValid "E9")).1.storage.expiresAt
        = some "E1" := by
  exact ⟨rfl, rfl, rfl, rfl⟩

/-- Claim C9 as amended: the on-demand refresh path of the response
interceptor is independent of any activity-tracker state, and the
shouldPreventExpiration signal gates nothing; but the session monitor is
gated by the isActive flag of AuthContext: with isActive false the
periodic body is skipped and no GET /check-token is issued, while with a
token present and isActive true the check is issued. -/
theorem c9_activity_gates_monitor_only (s : AppState) (r : CheckTokenResult)
    (a1 a2 : ActivityTrackerState) (sys : InterceptorSys) (e : NetEvent)
    (h : s.auth.isActive = false) :
    monitorTick s r = (s, false) ∧
    (∀ t : String, s.auth.token = some t → ∀ r2 : CheckTokenResult,
        (monitorTick { s with auth := { s.auth with isActive := true } } r2).2
          = true) ∧
    interceptorStepUnderActivity a1 sys e = interceptorStepUnderActivity a2 sys e := by
  refine ⟨?_, ?_, rfl⟩
  · simp [monitorTick, h]
  · intro t ht r2
    cases r2 <;> simp [monitorTick, ht]

/-- Witness for the amended C9: at the inactive demo state the monitor
skips the check; at the same state with isActive true every check-token
answer is actually requested; and the interceptor step ignores two
arbitrary different tracker states. -/
theorem c9_activity_gates_monitor_only_witness :
    monitorTick demoAppInactive (CheckTokenResult.stillValid "E9")
        = (demoAppInactive, false) ∧
    (∀ t : String, demoAppInactive.auth.token = some t →
        ∀ r2 : CheckTokenResult,
          (monitorTick { demoAppInactive with
                auth := { demoAppInactive.auth with isActive := true } } r2).2
            = true) ∧
    interceptorStepUnderActivity
        { isActive := true, isInTask := true, taskType := some "query_execution",
          lastActivity := some 0 } busySys
        (NetEvent.respError 9 (some 401) false)
      = interceptorStepUnderActivity
          { isActive := false, isInTask := false, taskType := none,
            lastActivity := none } busySys
          (NetEvent.respError 9 (some 401) false) :=
  c9_activity_gates_monitor_only demoAppInactive (CheckTokenResult.stillValid "E9")
    { isActive := true, isInTask := true, taskType := some "query_execution",
      lastActivity := some 0 }
    { isActive := false, isInTask := false, taskType := none, lastActivity := none }
    busySys (NetEvent.respError 9 (some 401) false) rfl

/-- Claim C10: when the login or register backend call throws, the error
flag becomes the backend message when one is present and nonempty and the
fixed fallback otherwise, user, token and the persisted credential stay
unchanged, loading is cleared and the error is rethrown; a 2xx envelope
with success false resolves without setting an error and without
persisting any credential. -/
theorem c10_auth_error_handling (s : AppState) (m : String) (msg : Option String)
    (d : AuthData) (hm : m ≠ "") :
    ((login s (AuthApiResult.thrown (some m))).1.auth.error = some m ∧
      (register s (AuthApiResult.thrown (some m))).1.auth.error = some m) ∧
    ((login s (AuthApiResult.thrown none)).1.auth.error = some "Login failed" ∧
      (register s (AuthApiResult.thrown none)).1.auth.error
        = some "Registration failed") ∧
    ((login s (AuthApiResult.thrown msg)).1.auth.user = s.auth.user ∧
      (login s (AuthApiResult.thrown msg)).1.auth.token = s.auth.token ∧
      (login s (AuthApiResult.thrown msg)).1.storage = s.storage ∧
      (login s (AuthApiResult.thrown msg)).1.auth.loading = false ∧
      (login s (AuthApiResult.thrown msg)).2 = CallOutcome.rethrown msg) ∧
    ((register s (AuthApiResult.thrown msg)).1.auth.user = s.auth.user ∧
      (register s (AuthApiResult.thrown msg)).1.auth.token = s.auth.token ∧
      (register s (AuthApiResult.thrown msg)).1.storage = s.storage ∧
      (register s (AuthApiResult.thrown msg)).1.auth.loading = false ∧
      (register s (AuthApiResult.thrown msg)).2 = CallOutcome.rethrown msg) ∧
    ((login s (AuthApiResult.ok false d)).1.auth.error = none ∧
      (login s (AuthApiResult.ok false d)).1.storage = s.storage ∧
      (login s (AuthApiResult.ok false d)).2 = CallOutcome.resolved) ∧
    ((register s (AuthApiResult.ok false d)).1.auth.error = none ∧
      (register s (AuthApiResult.ok false d)).1.storage = s.storage ∧
      (register s (AuthApiResult.ok false d)).2 = CallOutcome.resolved) := by
  refine ⟨⟨?_, ?_⟩, ⟨?_, ?_⟩, ⟨?_, ?_, ?_, ?_, ?_⟩, ⟨?_, ?_, ?_, ?_, ?_⟩,
    ⟨?_, ?_, ?_⟩, ⟨?_, ?_, ?_⟩⟩ <;>
    simp [login, register, jsOrElse, hm]

/-- Witness for C10 at the demo session with the message Invalid
credentials: the error flag carries the backend message or the fallback,
credentials stay put, loading clears, and the success-false envelope
resolves quietly. -/
theorem c10_auth_error_handling_witness :
    ((login demoApp (AuthApiResult.thrown (some "Invalid credentials"))).1.auth.error
        = some "Invalid credentials" ∧
      (register demoApp
            (AuthApiResult.thrown (some "Invalid credentials"))).1.auth.error
        = some "Invalid credentials") ∧
    ((login demoApp (AuthApiResult.thrown none)).1.auth.error
        = some "Login failed" ∧
      (register demoApp (AuthApiResult.thrown none)).1.auth.error
        = some "Registration failed") ∧
    ((login demoApp (AuthApiResult.thrown (some "Invalid credentials"))).1.auth.user
        = demoApp.auth.user ∧
      (login demoApp (AuthApiResult.thrown (some "Invalid credentials"))).1.auth.token
        = demoApp.auth.token ∧
      (login demoApp (AuthApiResult.thrown (some "Invalid credentials"))).1.storage
        = demoApp.storage ∧
      (login demoApp
            (AuthApiResult.thrown (some "Invalid credentials"))).1.auth.loading
        = false ∧
      (login demoApp (AuthApiResult.thrown (some "Invalid credentials"))).2
        = CallOutcome.rethrown (some "Invalid credentials")) ∧
    ((register demoApp (AuthApiResult.thrown (some "Invalid credentials"))).1.auth.user
        = demoApp.auth.user ∧
      (register demoApp
            (AuthApiResult.thrown (some "Invalid credentials"))).1.auth.token
        = demoApp.auth.token ∧
      (register demoApp (AuthApiResult.thrown (some "Invalid credentials"))).1.storage
        = demoApp.storage ∧
      (register demoApp
            (AuthApiResult.thrown (some "Invalid credentials"))).1.auth.loading
        = false ∧
      (register demoApp (AuthApiResult.thrown (some "Invalid credentials"))).2
        = CallOutcome.rethrown (some "Invalid credentials")) ∧
    ((login demoApp (AuthApiResult.ok false
          { user := { id := 2, name := "bob", email := "b@b.c" },
            token := "T3", expiresAt := "E3" })).1.auth.error = none ∧
      (login demoApp (AuthApiResult.ok false
            { user := { id := 2, name := "bob", email := "b@b.c" },
              token := "T3", expiresAt := "E3" })).1.storage = demoApp.storage ∧
      (login demoApp (AuthApiResult.ok false
            { user := { id := 2, name := "bob", email := "b@b.c" },
              token := "T3", expiresAt := "E3" })).2 = CallOutcome.resolved) ∧
    ((register demoApp (AuthApiResult.ok false
          { user := { id := 2, name := "bob", email := "b@b.c" },
            token := "T3", expiresAt := "E3" })).1.auth.error = none ∧
      (register demoApp (AuthApiResult.ok false
            { user := { id := 2, name := "bob", email := "b@b.c" },
              token := "T3", expiresAt := "E3" })).1.storage = demoApp.storage ∧
      (register demoApp (AuthApiResult.ok false
            { user := { id := 2, name := "bob", email := "b@b.c" },
              token := "T3", expiresAt := "E3" })).2 = CallOutcome.resolved) :=
  c10_auth_error_handling demoApp "Invalid credentials" (some "Invalid credentials")
    { user := { id := 2, name := "bob", email := "b@b.c" },
      token := "T3", expiresAt := "E3" }
    (by decide)

/-- Witness for C8: in an initialized module whose storage holds no token,
a first 401 triggers no refresh, rejects the caller and leaves zero
renewals outstanding. -/
theorem c8_no_token_no_refresh_witness :
    (∀ b : String,
        Act.issueRefresh b ∉
          (interceptorStep (initSys (removeStoredAuthData demoStorage) none)
              (NetEvent.respError 4 (some 401) false)).2) ∧
    Act.rejectCaller 4 ∈
        (interceptorStep (initSys (removeStoredAuthData demoStorage) none)
            (NetEvent.respError 4 (some 401) false)).2 ∧
    (interceptorStep (initSys (removeStoredAuthData demoStorage) none)
          (NetEvent.respError 4 (some 401) false)).1.refreshOutstanding
      = (initSys (removeStoredAuthData demoStorage) none).refreshOutstanding :=
  c8_no_token_no_refresh (initSys (removeStoredAuthData demoStorage) none) 4 rfl rfl
